import Mathlib

/-!
# Verification of the Resona repository

Shallow embedding of the Resona frontend utilities (token management, HTTP
response interceptor, auth callback) and of the behavioral modeling and
recommendation pipeline described in the specification.  The frontend
definitions are translated directly from the TypeScript sources; the backend
pipeline (feature aggregation, profile cache, clustering, recommendation,
evaluation, insights) is not part of the source tree, so those operations are
modelled from the specification, as marked in their doc comments.
-/

namespace Resona

/-! ## Browser localStorage model

`localStorage` is modelled as an association list from string keys to string
values; the first binding for a key wins, and `setItem`/`removeItem` keep at
most one binding per key. -/

/-- A browser localStorage store. -/
def Store := List (String × String)

instance : DecidableEq Store := inferInstanceAs (DecidableEq (List (String × String)))

/-- `localStorage.getItem(k)`: the stored value for `k`, or `null`. -/
def Store.getItem (s : Store) (k : String) : Option String :=
  List.lookup k s

/-- `localStorage.setItem(k, v)`: store `v` under `k`, replacing any previous binding. -/
def Store.setItem (s : Store) (k v : String) : Store :=
  (k, v) :: List.filter (fun p => p.1 != k) s

/-- `localStorage.removeItem(k)`: drop every binding for `k`. -/
def Store.removeItem (s : Store) (k : String) : Store :=
  List.filter (fun p => p.1 != k) s

/-- JavaScript truthiness of a `string | null` value: `null` and the empty
string are falsy, every other string is truthy. -/
def truthy : Option String → Bool
  | none => false
  | some v => v != ""

theorem Store.getItem_setItem (s : Store) (k v : String) :
    (s.setItem k v).getItem k = some v := by
  simp [Store.getItem, Store.setItem, List.lookup]

theorem Store.lookup_filter_ne (s : Store) (k : String) :
    List.lookup k (List.filter (fun p => p.1 != k) s) = none := by
  induction s with
  | nil => rfl
  | cons p s ih =>
    by_cases h : p.1 = k
    · simpa [List.filter, h] using ih
    · have hb : (p.1 != k) = true := by simp [bne, h]
      have hk : (k == p.1) = false := by
        simp [beq_eq_false_iff_ne]
        exact fun hkk => h hkk.symm
      cases p with
      | mk a b =>
        simp only [List.filter, hb]
        simpa [List.lookup, hk] using ih

theorem Store.getItem_removeItem (s : Store) (k : String) :
    (s.removeItem k).getItem k = none :=
  Store.lookup_filter_ne s k

/-! ## Token manager (`src/unnamed/part_000`, `tokenManager`) -/

/-- The localStorage key used by the client for the JWT. -/
def tokenKey : String := "resona_token"

/-- `tokenManager.saveToken`: save the JWT under `resona_token`. -/
def tokenManager.saveToken (s : Store) (t : String) : Store :=
  s.setItem tokenKey t

/-- `tokenManager.getToken`: read the JWT from `resona_token`. -/
def tokenManager.getToken (s : Store) : Option String :=
  s.getItem tokenKey

/-- `tokenManager.removeToken`: delete the `resona_token` binding. -/
def tokenManager.removeToken (s : Store) : Store :=
  s.removeItem tokenKey

/-- `tokenManager.isAuthenticated`: double negation (`!!`) of the stored
value, i.e. JavaScript truthiness of `localStorage.getItem('resona_token')`. -/
def tokenManager.isAuthenticated (s : Store) : Bool :=
  truthy (s.getItem tokenKey)

/-- **C10 (counterexample).** The claim quantifies over every token string,
but for the empty token `saveToken ""` stores `""`, and `isAuthenticated`
(which is `!!getItem(...)`) is then `false` because the empty string is falsy
in JavaScript, contradicting the claimed `isAuthenticated() = true`. -/
theorem c10_empty_token_counterexample :
    tokenManager.getToken (tokenManager.saveToken [] "") = some "" ∧
    tokenManager.isAuthenticated (tokenManager.saveToken [] "") = false := by
  constructor
  · rfl
  · rfl

/-- **C10 (amended).** For every token string `t`, after `saveToken t` the
call `getToken` returns `t`, and `isAuthenticated` returns `true` provided
`t` is non-empty (for the empty string it returns `false`); after
`removeToken`, `getToken` returns `null` and `isAuthenticated` returns
`false`. -/
theorem c10_token_roundtrip (t : String) (s : Store) :
    tokenManager.getToken (tokenManager.saveToken s t) = some t ∧
    (t ≠ "" → tokenManager.isAuthenticated (tokenManager.saveToken s t) = true) ∧
    tokenManager.getToken (tokenManager.removeToken s) = none ∧
    tokenManager.isAuthenticated (tokenManager.removeToken s) = false := by
  refine ⟨Store.getItem_setItem s tokenKey t, ?_, ?_, ?_⟩
  · intro ht
    simp [tokenManager.isAuthenticated, tokenManager.saveToken,
      Store.getItem_setItem, truthy, bne, ht]
  · exact Store.getItem_removeItem s tokenKey
  · simp [tokenManager.isAuthenticated, tokenManager.removeToken,
      Store.getItem_removeItem s tokenKey, truthy]

/-- **C10 (witness).** Concrete instance of `c10_token_roundtrip` at the
token `"jwt"` and a store that already holds an old token. -/
theorem c10_token_roundtrip_witness :
    tokenManager.isAuthenticated
      (tokenManager.saveToken [(tokenKey, "old")] "jwt") = true :=
  (c10_token_roundtrip "jwt" [(tokenKey, "old")]).2.1 (by decide)

/-! ## HTTP client response interceptor (`src/unnamed/part_001`) -/

/-- Outcome of the axios response-error interceptor: the localStorage state
after it runs, the navigation it performs (if any), and whether the error is
propagated as a rejected promise. -/
structure InterceptOutcome where
  store : Store
  redirect : Option String
  rejected : Bool
deriving DecidableEq

/-- The `httpClient` response-error interceptor: on a 401 response it removes
`resona_token` from localStorage and sets `window.location.href = '/'`;
in every case it returns `Promise.reject(error)`.  The response status is
optional because `error.response?.status` is `undefined` for network errors. -/
def responseErrorInterceptor (status : Option Nat) (s : Store) : InterceptOutcome :=
  if status = some 401 then
    { store := s.removeItem tokenKey, redirect := some "/", rejected := true }
  else
    { store := s, redirect := none, rejected := true }

/-- **C9.** The response interceptor always propagates the error as a rejected
promise; it navigates to `/` exactly when the status is 401, in which case it
removes the stored `resona_token`; for every other error status the store is
left unchanged. -/
theorem c9_interceptor (status : Option Nat) (s : Store) :
    (responseErrorInterceptor status s).rejected = true ∧
    ((responseErrorInterceptor status s).redirect = some "/" ↔ status = some 401) ∧
    (status = some 401 →
      (responseErrorInterceptor status s).store = tokenManager.removeToken s) ∧
    (status ≠ some 401 → (responseErrorInterceptor status s).store = s) := by
  by_cases h : status = some 401
  · refine ⟨by simp [responseErrorInterceptor, h], ?_, ?_, ?_⟩
    · simp [responseErrorInterceptor, h]
    · intro _
      simp [responseErrorInterceptor, h, tokenManager.removeToken]
    · intro hne
      exact absurd h hne
  · refine ⟨by simp [responseErrorInterceptor, h], ?_, ?_, ?_⟩
    · simp [responseErrorInterceptor, h]
    · intro h401
      exact absurd h401 h
    · intro _
      simp [responseErrorInterceptor, h]

/-- **C9 (witness).** A 401 response clears the stored token, while a 500
response leaves the store untouched; both at a concrete store holding a
token. -/
theorem c9_interceptor_witness :
    (responseErrorInterceptor (some 401) [(tokenKey, "jwt")]).store =
      tokenManager.removeToken [(tokenKey, "jwt")] ∧
    (responseErrorInterceptor (some 500) [(tokenKey, "jwt")]).store =
      [(tokenKey, "jwt")] :=
  ⟨(c9_interceptor (some 401) [(tokenKey, "jwt")]).2.2.1 rfl,
   (c9_interceptor (some 500) [(tokenKey, "jwt")]).2.2.2 (by decide)⟩

/-! ## Auth callback (`src/frontend/app/auth/page.tsx`, `AuthContent`) -/

/-- Outcome of the auth-callback effect: the localStorage state afterwards and
the route passed to `router.push`. -/
structure AuthOutcome where
  store : Store
  route : String
deriving DecidableEq

/-- The `AuthContent` effect: reads the `token` and `error` query parameters
(`searchParams.get` returns the value or `null`); if `error` is truthy it
navigates to `/?error=<error>`; otherwise if `token` is truthy it saves the
token and navigates to `/dashboard`; otherwise it navigates to `/`. -/
def authContentEffect (token err : Option String) (s : Store) : AuthOutcome :=
  if truthy err then
    { store := s, route := "/?error=" ++ err.getD "" }
  else if truthy token then
    { store := tokenManager.saveToken s (token.getD ""), route := "/dashboard" }
  else
    { store := s, route := "/" }

/-- **C8 (counterexample).** The claim says a token is stored (and the user
sent to `/dashboard`) whenever the query contains a `token` parameter and no
`error` parameter.  For the query `?token=` the `token` parameter is present
with the empty value, yet `if (token)` is falsy in JavaScript, so the
callback stores nothing and navigates to `/`. -/
theorem c8_empty_token_counterexample :
    authContentEffect (some "") none [] = { store := [], route := "/" } := by
  rfl

/-- **C8 (amended).** The callback stores the token and navigates to
`/dashboard` iff the query holds a truthy (non-empty) `token` parameter and no
truthy `error` parameter; with a truthy `error` parameter it navigates to
`/?error=<error>` without storing; otherwise it navigates to `/` without
storing. -/
theorem c8_auth_callback (token err : Option String) (s : Store) :
    (truthy err = true →
      (authContentEffect token err s).store = s ∧
      (authContentEffect token err s).route = "/?error=" ++ err.getD "") ∧
    (truthy err = false → truthy token = true →
      tokenManager.getToken (authContentEffect token err s).store = token ∧
      (authContentEffect token err s).route = "/dashboard") ∧
    (truthy err = false → truthy token = false →
      (authContentEffect token err s).store = s ∧
      (authContentEffect token err s).route = "/") := by
  refine ⟨?_, ?_, ?_⟩
  · intro he
    constructor
    · simp [authContentEffect, he]
    · simp [authContentEffect, he]
  · intro he ht
    cases token with
    | none => simp [truthy] at ht
    | some v =>
      constructor
      · simp only [authContentEffect, he, ht, Bool.false_eq_true, if_false, if_true,
          Option.getD_some, tokenManager.getToken, tokenManager.saveToken]
        exact Store.getItem_setItem s tokenKey v
      · simp [authContentEffect, he, ht]
  · intro he ht
    constructor
    · simp [authContentEffect, he, ht]
    · simp [authContentEffect, he, ht]

/-- **C8 (witness).** Concrete instances: a non-empty token is stored and the
user is sent to `/dashboard`; an error parameter sends the user to
`/?error=access_denied` without storing. -/
theorem c8_auth_callback_witness :
    tokenManager.getToken (authContentEffect (some "jwt") none []).store = some "jwt" ∧
    (authContentEffect (some "jwt") none []).route = "/dashboard" ∧
    (authContentEffect none (some "access_denied") []).store = [] ∧
    (authContentEffect none (some "access_denied") []).route = "/?error=access_denied" := by
  refine ⟨?_, ?_, ?_, ?_⟩
  · exact ((c8_auth_callback (some "jwt") none []).2.1 rfl (by decide)).1
  · exact ((c8_auth_callback (some "jwt") none []).2.1 rfl (by decide)).2
  · exact ((c8_auth_callback none (some "access_denied") []).1 (by decide)).1
  · exact ((c8_auth_callback none (some "access_denied") []).1 (by decide)).2

/-! ## Evaluation engine (spec §4.6)

The evaluation engine's code is not in the source tree (only the dashboard
that renders `precision_at_k`, `recall_at_k`, `f1_at_k`), so it is modelled
from the specification.  Metrics are rational numbers; tracks are identified
by their string identifiers and intersections use set semantics. -/

/-- Modelled from the spec: `|recommendations[:k] ∩ ground_truth|`, the number
of distinct identifiers occurring both in the first `k` recommendations and in
the ground truth. -/
def hitCount (recs gt : List String) (k : Nat) : Nat :=
  ((recs.take k).toFinset ∩ gt.toFinset).card

/-- Modelled from the spec: `precision_at_k = |recommendations[:k] ∩ ground_truth| / k`. -/
def precisionAtK (recs gt : List String) (k : Nat) : ℚ :=
  hitCount recs gt k / k

/-- Modelled from the spec: `recall_at_k = |recommendations[:k] ∩ ground_truth| /
|ground_truth|`, defined as `0` (not an error) when the ground truth is empty. -/
def recallAtK (recs gt : List String) (k : Nat) : ℚ :=
  if gt = [] then 0 else hitCount recs gt k / gt.toFinset.card

/-- Modelled from the spec: `f1_at_k` is the harmonic mean of precision and
recall, `0` when both are `0`. -/
def f1AtK (recs gt : List String) (k : Nat) : ℚ :=
  if precisionAtK recs gt k + recallAtK recs gt k = 0 then 0
  else 2 * precisionAtK recs gt k * recallAtK recs gt k /
    (precisionAtK recs gt k + recallAtK recs gt k)

/-- The three ranking metrics of an `EvaluationResult` (the diversity metric is
not involved in any claim about `evaluate` and is modelled with the insights
entropy machinery below). -/
structure EvaluationResult where
  precision_at_k : ℚ
  recall_at_k : ℚ
  f1_at_k : ℚ
deriving DecidableEq

/-- Modelled from the spec: `evaluate(recommendations, ground_truth, k)`. -/
def evaluate (recs gt : List String) (k : Nat) : EvaluationResult :=
  { precision_at_k := precisionAtK recs gt k
    recall_at_k := recallAtK recs gt k
    f1_at_k := f1AtK recs gt k }

/-- **C2.** `evaluate` computes `precision_at_k = |recs[:k] ∩ gt| / k` and
`recall_at_k = |recs[:k] ∩ gt| / |gt|` with recall `0` (not an error) on empty
ground truth; when the ground truth equals `recs[:k]` exactly (well-formed
recommendations: `0 < k ≤ |recs|`, distinct entries) all three metrics are
`1`, and when the two sets are disjoint all three are `0`. -/
theorem c2_evaluate (recs gt : List String) (k : Nat) :
    (evaluate recs gt k).precision_at_k = (hitCount recs gt k : ℚ) / k ∧
    (gt = [] → (evaluate recs gt k).recall_at_k = 0) ∧
    (gt ≠ [] →
      (evaluate recs gt k).recall_at_k = (hitCount recs gt k : ℚ) / gt.toFinset.card) ∧
    (0 < k → k ≤ recs.length → recs.Nodup → gt = recs.take k →
      (evaluate recs gt k).precision_at_k = 1 ∧
      (evaluate recs gt k).recall_at_k = 1 ∧
      (evaluate recs gt k).f1_at_k = 1) ∧
    ((recs.take k).toFinset ∩ gt.toFinset = ∅ →
      (evaluate recs gt k).precision_at_k = 0 ∧
      (evaluate recs gt k).recall_at_k = 0 ∧
      (evaluate recs gt k).f1_at_k = 0) := by
  refine ⟨rfl, ?_, ?_, ?_, ?_⟩
  · intro h
    simp [evaluate, recallAtK, h]
  · intro h
    simp [evaluate, recallAtK, h]
  · intro hk hlen hnodup hgt
    have htake : (recs.take k).Nodup := (List.take_sublist k recs).nodup hnodup
    have hlentake : (recs.take k).length = k := by
      rw [List.length_take]
      exact Nat.min_eq_left hlen
    have hhit : hitCount recs gt k = k := by
      rw [hitCount, hgt, Finset.inter_self, List.toFinset_card_of_nodup htake,
        hlentake]
    have hgtne : gt ≠ [] := by
      rw [hgt]
      intro hnil
      rw [hnil] at hlentake
      simp at hlentake
      omega
    have hkq : (k : ℚ) ≠ 0 := by
      exact_mod_cast Nat.pos_iff_ne_zero.mp hk
    have hp : precisionAtK recs gt k = 1 := by
      rw [precisionAtK, hhit]
      exact div_self hkq
    have hr : recallAtK recs gt k = 1 := by
      rw [recallAtK, if_neg hgtne, hhit, hgt, List.toFinset_card_of_nodup htake,
        hlentake]
      exact div_self hkq
    refine ⟨hp, hr, ?_⟩
    show f1AtK recs gt k = 1
    rw [f1AtK, hp, hr]
    norm_num
  · intro hdisj
    have hhit : hitCount recs gt k = 0 := by
      rw [hitCount, hdisj]
      exact Finset.card_empty
    have hp : precisionAtK recs gt k = 0 := by
      rw [precisionAtK, hhit]
      simp
    have hr : recallAtK recs gt k = 0 := by
      rw [recallAtK]
      by_cases h : gt = []
      · rw [if_pos h]
      · rw [if_neg h, hhit]
        simp
    refine ⟨hp, hr, ?_⟩
    show f1AtK recs gt k = 0
    rw [f1AtK, hp, hr]
    norm_num

/-- **C2 (witness).** Concrete instances of `c2_evaluate`: with
`recs = [a, b, c]`, `k = 2` and `gt = [a, b]` all three metrics are `1`; with
`gt = [x]` (disjoint) all three are `0`; with `gt = []` the recall is `0`, not
an error. -/
theorem c2_evaluate_witness :
    (evaluate ["a", "b", "c"] ["a", "b"] 2).precision_at_k = 1 ∧
    (evaluate ["a", "b", "c"] ["a", "b"] 2).recall_at_k = 1 ∧
    (evaluate ["a", "b", "c"] ["a", "b"] 2).f1_at_k = 1 ∧
    (evaluate ["a", "b", "c"] ["x"] 2).precision_at_k = 0 ∧
    (evaluate ["a", "b", "c"] ["x"] 2).f1_at_k = 0 ∧
    (evaluate ["a", "b", "c"] [] 2).recall_at_k = 0 := by
  have h1 := (c2_evaluate ["a", "b", "c"] ["a", "b"] 2).2.2.2.1
    (by decide) (by decide) (by decide) (by decide)
  have h2 := (c2_evaluate ["a", "b", "c"] ["x"] 2).2.2.2.2 (by decide)
  have h3 := (c2_evaluate ["a", "b", "c"] [] 2).2.1 rfl
  exact ⟨h1.1, h1.2.1, h1.2.2, h2.1, h2.2.2, h3⟩

/-! ## Profile cache (spec §4.3)

The cache code is not in the source tree (only the `getFeatures(force_refresh)`
client call), so `get_or_compute` is modelled from the specification.  Time is
a natural-number clock; the per-key single-flight locking is a concurrency
concern outside the shallow embedding, but the sequential contract is fully
modelled. -/

/-- A cached value together with the timestamp of its last computation. -/
structure CacheEntry (α : Type) where
  value : α
  computedAt : Nat
deriving DecidableEq

/-- What one `get_or_compute` call produced: the returned profile, the cache
entry stored afterwards, and whether `compute_fn` was invoked. -/
structure CacheResult (α : Type) where
  profile : α
  entry : CacheEntry α
  computeInvoked : Bool
deriving DecidableEq

/-- Modelled from the spec: `get_or_compute(user_id, compute_fn, force_refresh)`
for one user key.  If a cached entry exists, is not stale (`age < TTL`) and
`force_refresh` is false, return it unchanged without invoking `compute_fn`;
otherwise invoke `compute_fn`, replace the entry atomically and return the
fresh result. -/
def getOrCompute {α : Type} (cached : Option (CacheEntry α)) (now ttl : Nat)
    (forceRefresh : Bool) (computeFn : Unit → α) : CacheResult α :=
  match cached with
  | some e =>
      if forceRefresh = false ∧ now - e.computedAt < ttl then
        { profile := e.value, entry := e, computeInvoked := false }
      else
        { profile := computeFn (), entry := ⟨computeFn (), now⟩, computeInvoked := true }
  | none =>
      { profile := computeFn (), entry := ⟨computeFn (), now⟩, computeInvoked := true }

/-- **C3.** With a cached entry that is not stale (`age < TTL`) and
`force_refresh = false`, `get_or_compute` returns the cached value unchanged,
stores the same entry back, and does not invoke the compute function; hence
the read is idempotent — repeating it against the resulting cache state gives
the identical result. -/
theorem c3_cache_hit {α : Type} (e : CacheEntry α) (now ttl : Nat)
    (computeFn : Unit → α) (hfresh : now - e.computedAt < ttl) :
    getOrCompute (some e) now ttl false computeFn =
      { profile := e.value, entry := e, computeInvoked := false } ∧
    getOrCompute (some ((getOrCompute (some e) now ttl false computeFn).entry))
        now ttl false computeFn =
      getOrCompute (some e) now ttl false computeFn := by
  have h : getOrCompute (some e) now ttl false computeFn =
      { profile := e.value, entry := e, computeInvoked := false } := by
    rw [getOrCompute, if_pos ⟨rfl, hfresh⟩]
  exact ⟨h, by rw [h]; exact h⟩

/-- **C3 (witness).** Concrete fresh-cache instance: entry computed at time 3,
read at time 5 with TTL 10 — the cached value 42 is served and the compute
function (which would return 7) is not invoked. -/
theorem c3_cache_hit_witness :
    getOrCompute (some (⟨42, 3⟩ : CacheEntry Nat)) 5 10 false (fun _ => 7) =
      { profile := 42, entry := ⟨42, 3⟩, computeInvoked := false } :=
  (c3_cache_hit ⟨42, 3⟩ 5 10 (fun _ => 7) (by decide)).1

/-! ## Data model for the pipeline (spec §3)

The pipeline's code is not in the source tree, so the data model is modelled
from the specification.  Numeric values are rationals (the audio attributes
are already normalized to `[0,1]`); entropy-valued quantities are reals. -/

/-- Modelled from the spec: the seven bounded audio attributes of a track,
each normalized to `[0,1]`. -/
structure AudioAttrs where
  danceability : ℚ
  energy : ℚ
  valence : ℚ
  tempo : ℚ
  acousticness : ℚ
  instrumentalness : ℚ
  speechiness : ℚ
deriving DecidableEq

/-- The audio attributes as a plain numeric vector. -/
def AudioAttrs.toVec (a : AudioAttrs) : List ℚ :=
  [a.danceability, a.energy, a.valence, a.tempo,
   a.acousticness, a.instrumentalness, a.speechiness]

/-- The documented neutral default: midpoint `1/2` on every `[0,1]` scale. -/
def neutralAttrs : AudioAttrs :=
  ⟨1/2, 1/2, 1/2, 1/2, 1/2, 1/2, 1/2⟩

/-- Modelled from the spec: a catalog `Track` — identifier, name, artists,
popularity in `[0,100]`, genre set and audio-attribute vector. -/
structure Track where
  id : String
  name : String
  artists : List String
  popularity : ℚ
  genres : List String
  attrs : AudioAttrs
deriving DecidableEq

/-- Modelled from the spec: a track together with its recency annotations —
whether it was played in the most-recent window and in the prior window. -/
structure AnnotatedTrack where
  track : Track
  inRecentWindow : Bool
  inPriorWindow : Bool
deriving DecidableEq

/-- All genre occurrences across a track list (with multiplicity). -/
def allGenres (tracks : List Track) : List String :=
  (tracks.map Track.genres).flatten

/-- The genre vocabulary: the distinct genres occurring in the track list. -/
def genreVocab (tracks : List Track) : Finset String :=
  (allGenres tracks).toFinset

/-- How often genre `g` occurs across the track list. -/
def genreCount (tracks : List Track) (g : String) : Nat :=
  (allGenres tracks).count g

/-- Total number of genre occurrences. -/
def totalGenres (tracks : List Track) : Nat :=
  (allGenres tracks).length

theorem sum_genreCount (tracks : List Track) :
    ∑ g ∈ genreVocab tracks, genreCount tracks g = totalGenres tracks := by
  simp [genreVocab, genreCount, totalGenres]

/-- Modelled from the spec: the Shannon entropy (in nats) of the genre
frequency distribution — `∑ -p_g log p_g` over the genre vocabulary, where
`p_g` is the relative frequency of genre `g`.  Empty data yields `0`. -/
noncomputable def entropyNats (tracks : List Track) : ℝ :=
  ∑ g ∈ genreVocab tracks,
    Real.negMulLog ((genreCount tracks g : ℝ) / (totalGenres tracks : ℝ))

/-- Modelled from the spec: the same entropy converted to bits (the documented
base-2 choice). -/
noncomputable def entropyBits (tracks : List Track) : ℝ :=
  entropyNats tracks / Real.log 2

/-- Modelled from the spec: `genre_diversity` — the entropy normalized by the
log of the vocabulary size, clamped to `[0,1]`; `0` when fewer than two genres
exist. -/
noncomputable def genreDiversity (tracks : List Track) : ℝ :=
  if (genreVocab tracks).card ≤ 1 then 0
  else max 0 (min 1 (entropyNats tracks / Real.log ((genreVocab tracks).card : ℝ)))

/-- Modelled from the spec: a `BehavioralFeatureVector` — repeat rate,
exploration score, genre diversity, mean audio-attribute vector and
popularity bias. -/
structure BehavioralFeatureVector where
  repeat_rate : ℚ
  exploration_score : ℚ
  genre_diversity : ℝ
  mean_attrs : AudioAttrs
  popularity_bias : ℚ

/-- Componentwise arithmetic mean of the tracks' audio attributes; the
documented neutral midpoint on an empty list. -/
def meanAttrs (tracks : List Track) : AudioAttrs :=
  if tracks.length = 0 then neutralAttrs
  else
    { danceability := (tracks.map fun t => t.attrs.danceability).sum / tracks.length
      energy := (tracks.map fun t => t.attrs.energy).sum / tracks.length
      valence := (tracks.map fun t => t.attrs.valence).sum / tracks.length
      tempo := (tracks.map fun t => t.attrs.tempo).sum / tracks.length
      acousticness := (tracks.map fun t => t.attrs.acousticness).sum / tracks.length
      instrumentalness := (tracks.map fun t => t.attrs.instrumentalness).sum / tracks.length
      speechiness := (tracks.map fun t => t.attrs.speechiness).sum / tracks.length }

/-! ## Behavioral feature aggregator (spec §4.2, §8) -/

/-- Modelled from the spec: `aggregate(tracks, recency_signals)`.
`repeat_rate` is the fraction of most-recent-window tracks that also occur in
the prior window (`0` when either window is empty); `exploration_score` is the
fraction first seen in the most-recent window; `genre_diversity` is the
clamped normalized entropy; the mean attribute vector defaults to the neutral
midpoint and `popularity_bias` (mean popularity / 100) to the midpoint `1/2`
when no data is present.  Total — no input raises an exception, and no
component is ever undefined. -/
noncomputable def aggregate (input : List AnnotatedTrack) : BehavioralFeatureVector :=
  let tracks := input.map AnnotatedTrack.track
  let recent := input.filter fun a => a.inRecentWindow
  { repeat_rate :=
      if recent.length = 0 then 0
      else ((recent.filter fun a => a.inPriorWindow).length : ℚ) / recent.length
    exploration_score :=
      if recent.length = 0 then 0
      else ((recent.filter fun a => !a.inPriorWindow).length : ℚ) / recent.length
    genre_diversity := genreDiversity tracks
    mean_attrs := meanAttrs tracks
    popularity_bias :=
      if tracks.length = 0 then 1/2
      else (tracks.map Track.popularity).sum / tracks.length / 100 }

/-- **C4.** On the empty track list, `aggregate` returns (totally, raising no
exception) a `BehavioralFeatureVector` whose components are the documented
defaults: `repeat_rate = exploration_score = 0`, `genre_diversity = 0`, and
the neutral midpoint for the mean attribute vector and the popularity bias;
no component is an undefined value. -/
theorem c4_aggregate_empty :
    (aggregate []).repeat_rate = 0 ∧
    (aggregate []).exploration_score = 0 ∧
    (aggregate []).genre_diversity = 0 ∧
    (aggregate []).mean_attrs = neutralAttrs ∧
    (aggregate []).popularity_bias = 1/2 := by
  refine ⟨rfl, rfl, ?_, rfl, rfl⟩
  show genreDiversity [] = 0
  rw [genreDiversity, if_pos]
  show (genreVocab []).card ≤ 1
  rw [genreVocab]
  decide

/-! ## Cluster assigner (spec §4.4, §7)

The clustering code is not in the source tree (only the dashboard call that
renders a persona), so `fit` and `assign` are modelled from the
specification: Lloyd's-style iterative refinement with deterministic
farthest-point seeding, empty clusters reseeded to the point farthest from
the other centroids, and a maximum iteration bound.  Points are
`BehavioralFeatureVector`-shaped rational vectors; nearest-centroid
comparisons use the squared Euclidean distance, which orders identically to
the Euclidean distance. -/

/-- A feature point: a `BehavioralFeatureVector`-shaped numeric vector. -/
abbrev Point := List ℚ

/-- Squared Euclidean distance between two points. -/
def distSq (a b : Point) : ℚ :=
  (List.zipWith (fun x y => (x - y) ^ 2) a b).sum

/-- Index of the centroid nearest to `v` (first wins on ties): fold state is
the next index, the best index so far and its squared distance. -/
def nearestIdxAux (v : Point) : List Point → Nat → Nat → ℚ → Nat
  | [], _, best, _ => best
  | c :: cs, i, best, bestD =>
    if distSq v c < bestD then nearestIdxAux v cs (i + 1) i (distSq v c)
    else nearestIdxAux v cs (i + 1) best bestD

/-- Index of the centroid of `cs` nearest to `v` by Euclidean distance. -/
def nearestIdx (cs : List Point) (v : Point) : Nat :=
  match cs with
  | [] => 0
  | c :: rest => nearestIdxAux v rest 1 0 (distSq v c)

/-- Assign every point to its nearest centroid. -/
def assignAll (cs : List Point) (ps : List Point) : List Nat :=
  ps.map (nearestIdx cs)

/-- Componentwise vector addition. -/
def vecAdd (a b : Point) : Point := List.zipWith (· + ·) a b

/-- Componentwise mean of a set of points (`dim`-dimensional zero vector when
the set is empty — that case is replaced by reseeding in `updateCentroids`). -/
def meanVec (dim : Nat) (ps : List Point) : Point :=
  if ps.length = 0 then List.replicate dim 0
  else (ps.foldl vecAdd (List.replicate dim 0)).map fun x => x / ps.length

/-- Squared distance from `v` to the closest of the centroids `cs`. -/
def minDistSqTo (cs : List Point) (v : Point) : ℚ :=
  match cs with
  | [] => 0
  | c :: rest => rest.foldl (fun m c2 => min m (distSq v c2)) (distSq v c)

/-- Of two candidates, the one farther from the centroids `cs` (the current
best wins on ties). -/
def pickFarther (cs : List Point) (best q : Point) : Point :=
  if minDistSqTo cs best < minDistSqTo cs q then q else best

/-- The point of `ps` farthest from the centroids `cs` (first wins on ties):
the farthest-point choice used both for deterministic seeding and for
reseeding an empty cluster. -/
def farthestPoint (cs : List Point) (ps : List Point) : Point :=
  match ps with
  | [] => []
  | p :: rest => rest.foldl (pickFarther cs) p

/-- Add `n` more centroids by repeated farthest-point selection. -/
def seedAux (ps : List Point) : Nat → List Point → List Point
  | 0, cs => cs
  | n + 1, cs => seedAux ps n (cs ++ [farthestPoint cs ps])

/-- Deterministic farthest-point seeding: first point of the population, then
`k - 1` farthest-point picks. -/
def seedCentroids (ps : List Point) (k : Nat) : List Point :=
  match ps, k with
  | [], _ => []
  | _, 0 => []
  | p :: _, n + 1 => seedAux ps n [p]

/-- The points currently assigned to cluster `j`. -/
def clusterMembers (ps : List Point) (asn : List Nat) (j : Nat) : List Point :=
  (ps.zip asn).filterMap fun pa => if pa.2 = j then some pa.1 else none

/-- Recompute every centroid as the mean of its assigned points; a centroid
with no points is reseeded to the point farthest from the other centroids. -/
def updateCentroids (ps : List Point) (cs : List Point) (asn : List Nat) : List Point :=
  (List.range cs.length).map fun j =>
    let members := clusterMembers ps asn j
    if members.length = 0 then farthestPoint (cs.eraseIdx j) ps
    else meanVec (ps.headD []).length members

/-- Result of a `fit` run: final centroids and assignments, the number of
iterations performed, and whether the assignments reached a fixed point
before the iteration bound. -/
structure FitResult where
  centroids : List Point
  assignments : List Nat
  iterations : Nat
  converged : Bool
deriving DecidableEq

/-- The documented maximum iteration bound of `fit`. -/
def maxIterations : Nat := 100

/-- One documented-bound iteration scheme: recompute centroids, reassign,
stop as soon as the assignments stop changing or the fuel runs out. -/
def kmeansLoop (ps : List Point) : Nat → List Point → List Nat → Nat → FitResult
  | 0, cs, asn, iter =>
    { centroids := cs, assignments := asn, iterations := iter, converged := false }
  | fuel + 1, cs, asn, iter =>
    let cs2 := updateCentroids ps cs asn
    let asn2 := assignAll cs2 ps
    if asn2 = asn then
      { centroids := cs2, assignments := asn2, iterations := iter + 1, converged := true }
    else kmeansLoop ps fuel cs2 asn2 (iter + 1)

/-- Modelled from the spec: `fit(population, k)` — deterministic seeding
followed by Lloyd's iteration up to `maxIterations`. -/
def fit (ps : List Point) (k : Nat) : FitResult :=
  let cs0 := seedCentroids ps k
  kmeansLoop ps maxIterations cs0 (assignAll cs0 ps) 0

/-- Modelled from the spec: the process-wide `ClusterModel` snapshot. -/
structure ClusterModel where
  centroids : List Point
  labels : List String
  fitTimestamp : Nat
  populationSize : Nat
deriving DecidableEq

/-- Modelled from the spec: the pipeline error taxonomy (§7). -/
inductive PipelineError where
  | modelNotFit
  | insufficientData
  | dimensionMismatch
deriving DecidableEq

/-- Modelled from the spec: a `ClusterAssignment` — cluster id, (squared)
distance to the centroid, persona label and description. -/
structure ClusterAssignment where
  clusterId : Nat
  distanceSq : ℚ
  label : String
  description : String
deriving DecidableEq

/-- Modelled from the spec: `assign(model, vector)` — fails with
`ModelNotFitError` when no `ClusterModel` exists yet, with
`DimensionMismatchError` on a vector of unexpected length, and otherwise
returns the nearest centroid's id, distance and label. -/
def assign (model : Option ClusterModel) (v : Point) : Except PipelineError ClusterAssignment :=
  match model with
  | none => .error .modelNotFit
  | some m =>
    match m.centroids with
    | [] => .error .modelNotFit
    | c :: _ =>
      if v.length ≠ c.length then .error .dimensionMismatch
      else
        let j := nearestIdx m.centroids v
        .ok { clusterId := j
              distanceSq := distSq v (m.centroids.getD j [])
              label := m.labels.getD j "Listener"
              description := "cluster " ++ toString j }

/-- The default single-cluster assignment the caller degrades to. -/
def defaultClusterAssignment : ClusterAssignment :=
  { clusterId := 0, distanceSq := 0, label := "Default", description := "single default cluster" }

/-- Modelled from the spec: the caller of `assign` (the `/api/cluster`
endpoint) — a `ModelNotFitError` is replaced by the default single-cluster
assignment; every other outcome is passed through. -/
def getClusterEndpoint (model : Option ClusterModel) (v : Point) :
    Except PipelineError ClusterAssignment :=
  match assign model v with
  | .error .modelNotFit => .ok defaultClusterAssignment
  | r => r

/-- **C5.** Before any model has been fit, `assign` fails with
`ModelNotFitError`, and the calling endpoint falls back to the default
single-cluster assignment — a normal value, not a failure, so no hard
failure is visible to the end user. -/
theorem c5_assign_before_fit (v : Point) :
    assign none v = Except.error PipelineError.modelNotFit ∧
    getClusterEndpoint none v = Except.ok defaultClusterAssignment :=
  ⟨rfl, rfl⟩

/-! ### Termination and fixed-point facts about the fit loop -/

theorem kmeansLoop_iterations_le (ps : List Point) :
    ∀ fuel cs asn iter, (kmeansLoop ps fuel cs asn iter).iterations ≤ iter + fuel := by
  intro fuel
  induction fuel with
  | zero =>
    intro cs asn iter
    simp [kmeansLoop]
  | succ n ih =>
    intro cs asn iter
    rw [kmeansLoop]
    by_cases h : assignAll (updateCentroids ps cs asn) ps = asn
    · simp only [h, if_pos]
      omega
    · simp only [h, if_neg, if_false]
      have := ih (updateCentroids ps cs asn) (assignAll (updateCentroids ps cs asn) ps) (iter + 1)
      omega

theorem kmeansLoop_converged_fixed (ps : List Point) :
    ∀ fuel cs asn iter,
      (kmeansLoop ps fuel cs asn iter).converged = true →
      assignAll (kmeansLoop ps fuel cs asn iter).centroids ps =
        (kmeansLoop ps fuel cs asn iter).assignments := by
  intro fuel
  induction fuel with
  | zero =>
    intro cs asn iter h
    simp [kmeansLoop] at h
  | succ n ih =>
    intro cs asn iter
    rw [kmeansLoop]
    by_cases h : assignAll (updateCentroids ps cs asn) ps = asn
    · intro _
      simp only [h, if_pos]
    · simp only [h, if_neg, if_false]
      exact ih (updateCentroids ps cs asn) (assignAll (updateCentroids ps cs asn) ps) (iter + 1)

/-! ### Convergence scenario: a population of 100 vectors, k = 4 -/

/-- Group-A point of the scenario population. -/
def ptA : Point := [1, 0, 0, 0, 0]

/-- Group-B point of the scenario population. -/
def ptB : Point := [0, 1, 0, 0, 0]

/-- Group-C point of the scenario population. -/
def ptC : Point := [0, 0, 1, 0, 0]

/-- Group-D point of the scenario population. -/
def ptD : Point := [0, 0, 0, 1, 0]

/-- The scenario population: 100 `BehavioralFeatureVector`-shaped points in
four groups of 25. -/
def pop100 : List Point :=
  List.replicate 25 ptA ++ List.replicate 25 ptB ++
    List.replicate 25 ptC ++ List.replicate 25 ptD

/-- The converged assignment of the scenario: group `g` to cluster `g`. -/
def asn100 : List Nat :=
  List.replicate 25 0 ++ List.replicate 25 1 ++
    List.replicate 25 2 ++ List.replicate 25 3

theorem farthest_seed1 : farthestPoint [ptA] pop100 = ptB := by
  norm_num [pop100, farthestPoint, pickFarther, minDistSqTo, distSq,
    ptA, ptB, ptC, ptD, List.replicate_succ]

theorem farthest_seed2 : farthestPoint [ptA, ptB] pop100 = ptC := by
  norm_num [pop100, farthestPoint, pickFarther, minDistSqTo, distSq,
    ptA, ptB, ptC, ptD, List.replicate_succ]

theorem farthest_seed3 : farthestPoint [ptA, ptB, ptC] pop100 = ptD := by
  norm_num [pop100, farthestPoint, pickFarther, minDistSqTo, distSq,
    ptA, ptB, ptC, ptD, List.replicate_succ]

theorem seed_pop100 : seedCentroids pop100 4 = [ptA, ptB, ptC, ptD] := by
  have h1 : seedCentroids pop100 4 =
      seedAux pop100 2 [ptA, farthestPoint [ptA] pop100] := rfl
  rw [h1, farthest_seed1]
  have h2 : seedAux pop100 2 [ptA, ptB] =
      seedAux pop100 1 [ptA, ptB, farthestPoint [ptA, ptB] pop100] := rfl
  rw [h2, farthest_seed2]
  have h3 : seedAux pop100 1 [ptA, ptB, ptC] =
      seedAux pop100 0 [ptA, ptB, ptC, farthestPoint [ptA, ptB, ptC] pop100] := rfl
  rw [h3, farthest_seed3]
  rfl

theorem nearest_ptA : nearestIdx [ptA, ptB, ptC, ptD] ptA = 0 := by
  norm_num [nearestIdx, nearestIdxAux, distSq, ptA, ptB, ptC, ptD]

theorem nearest_ptB : nearestIdx [ptA, ptB, ptC, ptD] ptB = 1 := by
  norm_num [nearestIdx, nearestIdxAux, distSq, ptA, ptB, ptC, ptD]

theorem nearest_ptC : nearestIdx [ptA, ptB, ptC, ptD] ptC = 2 := by
  norm_num [nearestIdx, nearestIdxAux, distSq, ptA, ptB, ptC, ptD]

theorem nearest_ptD : nearestIdx [ptA, ptB, ptC, ptD] ptD = 3 := by
  norm_num [nearestIdx, nearestIdxAux, distSq, ptA, ptB, ptC, ptD]

theorem assignAll_pop100 : assignAll [ptA, ptB, ptC, ptD] pop100 = asn100 := by
  rw [assignAll, pop100, asn100, List.map_append, List.map_append, List.map_append,
    List.map_replicate, List.map_replicate, List.map_replicate, List.map_replicate,
    nearest_ptA, nearest_ptB, nearest_ptC, nearest_ptD]

theorem zip_replicate_same {α β : Type} (a : α) (b : β) (n : Nat) :
    (List.replicate n a).zip (List.replicate n b) = List.replicate n (a, b) := by
  induction n with
  | zero => rfl
  | succ m ih => simp [List.replicate_succ, ih]

theorem filterMap_replicate_of_some {α β : Type} (f : α → Option β) (x : α) (y : β)
    (h : f x = some y) (n : Nat) :
    (List.replicate n x).filterMap f = List.replicate n y := by
  induction n with
  | zero => rfl
  | succ m ih => simp [List.replicate_succ, List.filterMap_cons, h, ih]

theorem filterMap_replicate_of_none {α β : Type} (f : α → Option β) (x : α)
    (h : f x = none) (n : Nat) :
    (List.replicate n x).filterMap f = [] := by
  induction n with
  | zero => rfl
  | succ m ih => simp [List.replicate_succ, List.filterMap_cons, h, ih]

theorem zip_pop100_asn100 :
    pop100.zip asn100 =
      List.replicate 25 (ptA, 0) ++ List.replicate 25 (ptB, 1) ++
        List.replicate 25 (ptC, 2) ++ List.replicate 25 (ptD, 3) := by
  rw [pop100, asn100]
  rw [List.zip_append (by simp), List.zip_append (by simp), List.zip_append (by simp),
    zip_replicate_same, zip_replicate_same, zip_replicate_same, zip_replicate_same]

theorem members_pop100_0 : clusterMembers pop100 asn100 0 = List.replicate 25 ptA := by
  rw [clusterMembers, zip_pop100_asn100]
  rw [List.filterMap_append, List.filterMap_append, List.filterMap_append]
  rw [filterMap_replicate_of_some (fun pa : Point × Nat => if pa.2 = 0 then some pa.1 else none) (ptA, 0) ptA rfl,
    filterMap_replicate_of_none (fun pa : Point × Nat => if pa.2 = 0 then some pa.1 else none) (ptB, 1) rfl,
    filterMap_replicate_of_none (fun pa : Point × Nat => if pa.2 = 0 then some pa.1 else none) (ptC, 2) rfl,
    filterMap_replicate_of_none (fun pa : Point × Nat => if pa.2 = 0 then some pa.1 else none) (ptD, 3) rfl]
  simp

theorem members_pop100_1 : clusterMembers pop100 asn100 1 = List.replicate 25 ptB := by
  rw [clusterMembers, zip_pop100_asn100]
  rw [List.filterMap_append, List.filterMap_append, List.filterMap_append]
  rw [filterMap_replicate_of_none (fun pa : Point × Nat => if pa.2 = 1 then some pa.1 else none) (ptA, 0) rfl,
    filterMap_replicate_of_some (fun pa : Point × Nat => if pa.2 = 1 then some pa.1 else none) (ptB, 1) ptB rfl,
    filterMap_replicate_of_none (fun pa : Point × Nat => if pa.2 = 1 then some pa.1 else none) (ptC, 2) rfl,
    filterMap_replicate_of_none (fun pa : Point × Nat => if pa.2 = 1 then some pa.1 else none) (ptD, 3) rfl]
  simp

theorem members_pop100_2 : clusterMembers pop100 asn100 2 = List.replicate 25 ptC := by
  rw [clusterMembers, zip_pop100_asn100]
  rw [List.filterMap_append, List.filterMap_append, List.filterMap_append]
  rw [filterMap_replicate_of_none (fun pa : Point × Nat => if pa.2 = 2 then some pa.1 else none) (ptA, 0) rfl,
    filterMap_replicate_of_none (fun pa : Point × Nat => if pa.2 = 2 then some pa.1 else none) (ptB, 1) rfl,
    filterMap_replicate_of_some (fun pa : Point × Nat => if pa.2 = 2 then some pa.1 else none) (ptC, 2) ptC rfl,
    filterMap_replicate_of_none (fun pa : Point × Nat => if pa.2 = 2 then some pa.1 else none) (ptD, 3) rfl]
  simp

theorem members_pop100_3 : clusterMembers pop100 asn100 3 = List.replicate 25 ptD := by
  rw [clusterMembers, zip_pop100_asn100]
  rw [List.filterMap_append, List.filterMap_append, List.filterMap_append]
  rw [filterMap_replicate_of_none (fun pa : Point × Nat => if pa.2 = 3 then some pa.1 else none) (ptA, 0) rfl,
    filterMap_replicate_of_none (fun pa : Point × Nat => if pa.2 = 3 then some pa.1 else none) (ptB, 1) rfl,
    filterMap_replicate_of_none (fun pa : Point × Nat => if pa.2 = 3 then some pa.1 else none) (ptC, 2) rfl,
    filterMap_replicate_of_some (fun pa : Point × Nat => if pa.2 = 3 then some pa.1 else none) (ptD, 3) ptD rfl]
  simp

theorem foldl_vecAdd_replicate (n : Nat) :
    ∀ p1 p2 p3 p4 p5 a b c d e : ℚ,
      (List.replicate n [p1, p2, p3, p4, p5]).foldl vecAdd [a, b, c, d, e] =
        [a + n * p1, b + n * p2, c + n * p3, d + n * p4, e + n * p5] := by
  induction n with
  | zero =>
    intro p1 p2 p3 p4 p5 a b c d e
    simp
  | succ m ih =>
    intro p1 p2 p3 p4 p5 a b c d e
    rw [List.replicate_succ, List.foldl_cons,
      show vecAdd [a, b, c, d, e] [p1, p2, p3, p4, p5] =
        [a + p1, b + p2, c + p3, d + p4, e + p5] from by simp [vecAdd],
      ih]
    push_cast
    ring_nf

theorem meanVec_replicate_ptA : meanVec 5 (List.replicate 25 ptA) = ptA := by
  rw [meanVec, if_neg (by simp), show List.replicate 5 (0 : ℚ) = [0, 0, 0, 0, 0] from rfl,
    show (List.replicate 25 ptA) = (List.replicate 25 ([1, 0, 0, 0, 0] : Point)) from rfl,
    foldl_vecAdd_replicate]
  norm_num [ptA]

theorem meanVec_replicate_ptB : meanVec 5 (List.replicate 25 ptB) = ptB := by
  rw [meanVec, if_neg (by simp), show List.replicate 5 (0 : ℚ) = [0, 0, 0, 0, 0] from rfl,
    show (List.replicate 25 ptB) = (List.replicate 25 ([0, 1, 0, 0, 0] : Point)) from rfl,
    foldl_vecAdd_replicate]
  norm_num [ptB]

theorem meanVec_replicate_ptC : meanVec 5 (List.replicate 25 ptC) = ptC := by
  rw [meanVec, if_neg (by simp), show List.replicate 5 (0 : ℚ) = [0, 0, 0, 0, 0] from rfl,
    show (List.replicate 25 ptC) = (List.replicate 25 ([0, 0, 1, 0, 0] : Point)) from rfl,
    foldl_vecAdd_replicate]
  norm_num [ptC]

theorem meanVec_replicate_ptD : meanVec 5 (List.replicate 25 ptD) = ptD := by
  rw [meanVec, if_neg (by simp), show List.replicate 5 (0 : ℚ) = [0, 0, 0, 0, 0] from rfl,
    show (List.replicate 25 ptD) = (List.replicate 25 ([0, 0, 0, 1, 0] : Point)) from rfl,
    foldl_vecAdd_replicate]
  norm_num [ptD]

theorem updateCentroids_pop100 :
    updateCentroids pop100 [ptA, ptB, ptC, ptD] asn100 = [ptA, ptB, ptC, ptD] := by
  rw [updateCentroids,
    show List.range (List.length [ptA, ptB, ptC, ptD]) = [0, 1, 2, 3] from rfl]
  simp only [List.map_cons, List.map_nil]
  rw [members_pop100_0, members_pop100_1, members_pop100_2, members_pop100_3]
  simp only [List.length_replicate,
    show ((pop100.headD []).length) = 5 from rfl]
  norm_num [meanVec_replicate_ptA, meanVec_replicate_ptB, meanVec_replicate_ptC,
    meanVec_replicate_ptD]

theorem fit_pop100 :
    fit pop100 4 =
      { centroids := [ptA, ptB, ptC, ptD], assignments := asn100,
        iterations := 1, converged := true } := by
  have h0 : fit pop100 4 =
      kmeansLoop pop100 maxIterations (seedCentroids pop100 4)
        (assignAll (seedCentroids pop100 4) pop100) 0 := rfl
  rw [h0, seed_pop100, assignAll_pop100]
  have h1 : kmeansLoop pop100 maxIterations [ptA, ptB, ptC, ptD] asn100 0 =
      (if assignAll (updateCentroids pop100 [ptA, ptB, ptC, ptD] asn100) pop100 = asn100 then
        ({ centroids := updateCentroids pop100 [ptA, ptB, ptC, ptD] asn100,
           assignments := assignAll (updateCentroids pop100 [ptA, ptB, ptC, ptD] asn100) pop100,
           iterations := 1, converged := true } : FitResult)
      else kmeansLoop pop100 99 (updateCentroids pop100 [ptA, ptB, ptC, ptD] asn100)
        (assignAll (updateCentroids pop100 [ptA, ptB, ptC, ptD] asn100) pop100) 1) := rfl
  rw [h1, updateCentroids_pop100, assignAll_pop100, if_pos rfl]

/-- **C6.** `fit` terminates for every population and every `k`: its
iteration count never exceeds the documented bound `maxIterations`, and
whenever it reports convergence the assignments have stopped changing (they
are a fixed point of reassignment against the final centroids).  In
particular, on the scenario population of 100 vectors in four groups with
`k = 4`, `fit` converges within the bound (in one iteration) and produces
exactly 4 clusters, each non-empty. -/
theorem c6_fit_terminates (ps : List Point) (k : Nat) :
    (fit ps k).iterations ≤ maxIterations ∧
    ((fit ps k).converged = true →
      assignAll (fit ps k).centroids ps = (fit ps k).assignments) ∧
    (fit pop100 4).converged = true ∧
    (fit pop100 4).iterations = 1 ∧
    (fit pop100 4).centroids.length = 4 ∧
    (∀ j, j < 4 → j ∈ (fit pop100 4).assignments) := by
  refine ⟨?_, ?_, ?_, ?_, ?_, ?_⟩
  · have h := kmeansLoop_iterations_le ps maxIterations (seedCentroids ps k)
      (assignAll (seedCentroids ps k) ps) 0
    simpa [fit] using h
  · have h := kmeansLoop_converged_fixed ps maxIterations (seedCentroids ps k)
      (assignAll (seedCentroids ps k) ps) 0
    simpa [fit] using h
  · rw [fit_pop100]
  · rw [fit_pop100]
  · rw [fit_pop100]
    rfl
  · intro j hj
    rw [fit_pop100]
    have hcases : j = 0 ∨ j = 1 ∨ j = 2 ∨ j = 3 := by omega
    rcases hcases with h | h | h | h <;> subst h <;> decide

/-- **C6 (witness).** Concrete instance of `c6_fit_terminates` on the
scenario population: its converged assignments are a fixed point, and
clusters 0 and 3 are both non-empty. -/
theorem c6_fit_terminates_witness :
    assignAll (fit pop100 4).centroids pop100 = (fit pop100 4).assignments ∧
    0 ∈ (fit pop100 4).assignments ∧ 3 ∈ (fit pop100 4).assignments := by
  have h := c6_fit_terminates pop100 4
  exact ⟨h.2.1 h.2.2.1, h.2.2.2.2.2 0 (by norm_num), h.2.2.2.2.2 3 (by norm_num)⟩

/-! ## Recommendation engine (spec §4.5)

The recommendation code is not in the source tree (only the
`getRecommendations(limit)` client call and the dashboard grid), so
`recommend` is modelled from the specification: dedup the candidate pool by
identifier, exclude the user's known tracks, score each candidate, and rank
by score with ties broken by popularity descending and then stable
identifier order.  The exact similarity weights are configuration (spec §9),
so they are an explicit parameter. -/

/-- Modelled from the spec: the profile data the recommendation engine reads —
the user's known track ids, mean audio-attribute vector, popularity bias and
dominant genres. -/
structure TasteProfile where
  knownTrackIds : List String
  meanAttrs : AudioAttrs
  popularityBias : ℚ
  topGenres : List String
deriving DecidableEq

/-- Modelled from the spec: the tunable scoring weights (similarity,
popularity affinity, diversity penalty). -/
structure ScoringConfig where
  similarityWeight : ℚ
  popularityWeight : ℚ
  diversityPenaltyWeight : ℚ
deriving DecidableEq

/-- Modelled from the spec: the candidate score — documented concrete choice:
similarity is the negative squared Euclidean distance between the candidate's
audio-attribute vector and the user's mean vector; popularity affinity
rewards closeness of normalized popularity to the user's popularity bias; the
diversity penalty discounts each candidate genre already dominant in the
profile. -/
def scoreTrack (cfg : ScoringConfig) (p : TasteProfile) (t : Track) : ℚ :=
  cfg.similarityWeight * (-(distSq t.attrs.toVec p.meanAttrs.toVec)) +
    cfg.popularityWeight * (1 - |t.popularity / 100 - p.popularityBias|) -
    cfg.diversityPenaltyWeight *
      ((t.genres.filter fun g => p.topGenres.contains g).length : ℚ)

/-- Deduplicate by identifier, keeping the first occurrence of each id. -/
def dedupByIdAux : List Track → List String → List Track
  | [], _ => []
  | t :: ts, seen =>
    if seen.contains t.id then dedupByIdAux ts seen
    else t :: dedupByIdAux ts (t.id :: seen)

/-- Modelled from the spec: dedup of the candidate pool by identifier. -/
def dedupById (l : List Track) : List Track :=
  dedupByIdAux l []

/-- Modelled from the spec: the candidate pool after excluding the user's
known tracks and deduplicating by identifier. -/
def eligiblePool (p : TasteProfile) (pool : List Track) : List Track :=
  dedupById (pool.filter fun t => !(p.knownTrackIds.contains t.id))

/-- The ranking key: score descending, then popularity descending, then
identifier ascending — a lexicographic linear order, so the ranking is total
and deterministic. -/
def recKey (cfg : ScoringConfig) (p : TasteProfile) (t : Track) : ℚ ×ₗ (ℚ ×ₗ String) :=
  toLex (-(scoreTrack cfg p t), toLex (-(t.popularity), t.id))

/-- The ranking relation used to sort candidates. -/
def recLE (cfg : ScoringConfig) (p : TasteProfile) : Track → Track → Prop :=
  fun a b => recKey cfg p a ≤ recKey cfg p b

instance recLEDecidable (cfg : ScoringConfig) (p : TasteProfile) :
    DecidableRel (recLE cfg p) :=
  fun a b => inferInstanceAs (Decidable (recKey cfg p a ≤ recKey cfg p b))

instance recLETotal (cfg : ScoringConfig) (p : TasteProfile) :
    IsTotal Track (recLE cfg p) :=
  ⟨fun a b => le_total (recKey cfg p a) (recKey cfg p b)⟩

instance recLETrans (cfg : ScoringConfig) (p : TasteProfile) :
    IsTrans Track (recLE cfg p) :=
  ⟨fun _ _ _ h1 h2 => le_trans h1 h2⟩

/-- Modelled from the spec: `recommend(profile, candidate_pool, limit)` —
rank the eligible candidates and return the first `limit` of them. -/
def recommend (cfg : ScoringConfig) (p : TasteProfile) (pool : List Track)
    (limit : Nat) : List Track :=
  ((eligiblePool p pool).insertionSort (recLE cfg p)).take limit

theorem mem_dedupByIdAux {t : Track} :
    ∀ (l : List Track) (seen : List String), t ∈ dedupByIdAux l seen → t ∈ l := by
  intro l
  induction l with
  | nil =>
    intro seen h
    exact absurd h (List.not_mem_nil t)
  | cons x xs ih =>
    intro seen h
    rw [dedupByIdAux] at h
    split at h
    · exact List.mem_cons_of_mem x (ih seen h)
    · rcases List.mem_cons.1 h with h1 | h1
      · exact h1 ▸ List.mem_cons_self x xs
      · exact List.mem_cons_of_mem x (ih (x.id :: seen) h1)

theorem eligible_not_known {p : TasteProfile} {pool : List Track} {t : Track}
    (h : t ∈ eligiblePool p pool) : p.knownTrackIds.contains t.id = false := by
  have hm := mem_dedupByIdAux _ _ h
  rw [List.mem_filter] at hm
  simpa using hm.2

theorem mem_recommend {cfg : ScoringConfig} {p : TasteProfile} {pool : List Track}
    {limit : Nat} {t : Track} (h : t ∈ recommend cfg p pool limit) :
    t ∈ eligiblePool p pool := by
  have h1 : t ∈ (eligiblePool p pool).insertionSort (recLE cfg p) :=
    List.mem_of_mem_take h
  exact ((List.perm_insertionSort (recLE cfg p) (eligiblePool p pool)).mem_iff).1 h1

theorem recLE_iff (cfg : ScoringConfig) (p : TasteProfile) (a b : Track) :
    recLE cfg p a b ↔
      (scoreTrack cfg p b < scoreTrack cfg p a ∨
        (scoreTrack cfg p a = scoreTrack cfg p b ∧
          (b.popularity < a.popularity ∨
            (a.popularity = b.popularity ∧ a.id ≤ b.id)))) := by
  rw [recLE, recKey, recKey, Prod.Lex.le_iff]
  simp only [neg_lt_neg_iff, neg_inj, Prod.Lex.le_iff]

/-- **C1.** For every scoring configuration, profile, candidate pool and
limit, the output of `recommend` contains no track from the user's known set
(the filter for known ids is empty), has length `min limit |eligible pool|`
— hence at most `limit`, and fewer (not an error) when the deduplicated
pool is smaller — is deterministic (the model is a pure function: equal
inputs give syntactically equal output), and is sorted by score descending
with ties broken by candidate popularity descending and then by stable
identifier order. -/
theorem c1_recommend (cfg : ScoringConfig) (p : TasteProfile) (pool : List Track)
    (limit : Nat) :
    ((recommend cfg p pool limit).filter fun t => p.knownTrackIds.contains t.id) = [] ∧
    (recommend cfg p pool limit).length = min limit (eligiblePool p pool).length ∧
    (recommend cfg p pool limit).length ≤ limit ∧
    recommend cfg p pool limit = recommend cfg p pool limit ∧
    (recommend cfg p pool limit).Sorted (fun a b =>
      scoreTrack cfg p b < scoreTrack cfg p a ∨
        (scoreTrack cfg p a = scoreTrack cfg p b ∧
          (b.popularity < a.popularity ∨
            (a.popularity = b.popularity ∧ a.id ≤ b.id)))) := by
  refine ⟨?_, ?_, ?_, rfl, ?_⟩
  · rw [List.filter_eq_nil_iff]
    intro t ht
    simpa using eligible_not_known (mem_recommend ht)
  · rw [recommend, List.length_take,
      (List.perm_insertionSort (recLE cfg p) (eligiblePool p pool)).length_eq]
  · rw [recommend, List.length_take]
    exact Nat.min_le_left _ _
  · have hs : ((eligiblePool p pool).insertionSort (recLE cfg p)).Sorted (recLE cfg p) :=
      List.sorted_insertionSort (recLE cfg p) (eligiblePool p pool)
    have ht : (recommend cfg p pool limit).Sorted (recLE cfg p) :=
      hs.sublist (List.take_sublist limit _)
    exact ht.imp fun h => (recLE_iff cfg p _ _).1 h

/-- **C1 (witness).** The membership helpers of `c1_recommend` at a concrete
instance are exercised through the hypothesis-free statement itself; this
closed corollary applies the theorem at a concrete configuration, profile,
pool and limit. -/
theorem c1_recommend_witness :
    ((recommend ⟨1, 1, 1⟩ ⟨["a"], neutralAttrs, 1/2, []⟩ [] 5).filter
      fun t => (["a"] : List String).contains t.id) = [] ∧
    (recommend ⟨1, 1, 1⟩ ⟨["a"], neutralAttrs, 1/2, []⟩ [] 5).length ≤ 5 :=
  ⟨(c1_recommend ⟨1, 1, 1⟩ ⟨["a"], neutralAttrs, 1/2, []⟩ [] 5).1,
   (c1_recommend ⟨1, 1, 1⟩ ⟨["a"], neutralAttrs, 1/2, []⟩ [] 5).2.2.1⟩

/-! ## Insights engine (spec §4.7)

The insights code is not in the source tree (only the dashboard card that
renders `entropy_score`), so `analyze` is modelled from the specification.
Only the entropy component is involved in a claim; the deviation, mood and
evolution components are outside the modelled scope. -/

/-- Modelled from the spec: the profile data the insights engine reads. -/
structure UserProfileData where
  userId : String
  tracks : List Track
deriving DecidableEq

/-- Modelled from the spec: the `InsightsResult` restricted to the
entropy component. -/
structure InsightsResult where
  entropy_score : ℝ

/-- Modelled from the spec: `analyze(profile, population_baseline)` — the
entropy score is the Shannon entropy, in bits (the documented base), of the
user's genre frequency distribution. -/
noncomputable def analyze (prof : UserProfileData) (baseline : List Point) : InsightsResult :=
  { entropy_score := entropyBits prof.tracks }

theorem entropyNats_nonneg (tracks : List Track) : 0 ≤ entropyNats tracks := by
  rw [entropyNats]
  apply Finset.sum_nonneg
  intro g hg
  by_cases htot : (totalGenres tracks : ℝ) = 0
  · rw [htot, div_zero, Real.negMulLog_zero]
  · refine Real.negMulLog_nonneg (by positivity) ?_
    refine div_le_one_of_le₀ ?_ (by positivity)
    exact_mod_cast List.count_le_length g (allGenres tracks)

theorem count_lt_total_of_card (tracks : List Track) {g : String}
    (hg : g ∈ genreVocab tracks) (hcard : 2 ≤ (genreVocab tracks).card) :
    genreCount tracks g < totalGenres tracks := by
  have h1lt : 1 < (genreVocab tracks).card := by omega
  obtain ⟨h, hh, hne⟩ := Finset.exists_ne_of_one_lt_card h1lt g
  have hpos : 0 < genreCount tracks h := by
    rw [genreCount, List.count_pos_iff]
    exact List.mem_toFinset.1 hh
  have hsplit : genreCount tracks g + ∑ x ∈ (genreVocab tracks).erase g, genreCount tracks x =
      totalGenres tracks := by
    rw [Finset.add_sum_erase _ _ hg, sum_genreCount]
  have hmem : h ∈ (genreVocab tracks).erase g := Finset.mem_erase.2 ⟨hne, hh⟩
  have hle : genreCount tracks h ≤ ∑ x ∈ (genreVocab tracks).erase g, genreCount tracks x :=
    Finset.single_le_sum (fun i _ => Nat.zero_le _) hmem
  omega

/-- **C7.** `analyze` returns an `entropy_score` equal to the Shannon entropy
(in the documented base, bits) of the user's genre frequency distribution,
hence non-negative for every profile; for a profile of 10 tracks over 6
genres the score is strictly positive and at most `log2 6`. -/
theorem negMulLog_pos_of_mem_Ioo {x : ℝ} (hx0 : 0 < x) (hx1 : x < 1) :
    0 < Real.negMulLog x := by
  have hlog : Real.log x < 0 := Real.log_neg hx0 hx1
  rw [Real.negMulLog]
  nlinarith

theorem genreProb_pos {tracks : List Track} {g : String}
    (hg : g ∈ genreVocab tracks) (htotpos : 0 < totalGenres tracks) :
    0 < (genreCount tracks g : ℝ) / (totalGenres tracks : ℝ) := by
  have hcpos : 0 < genreCount tracks g := by
    rw [genreCount, List.count_pos_iff]
    exact List.mem_toFinset.1 hg
  have h1 : (0 : ℝ) < (genreCount tracks g : ℝ) := by exact_mod_cast hcpos
  have h2 : (0 : ℝ) < (totalGenres tracks : ℝ) := by exact_mod_cast htotpos
  exact div_pos h1 h2

/-- **C7.** `analyze` returns an `entropy_score` equal to the Shannon entropy
(in the documented base, bits) of the user's genre frequency distribution,
hence non-negative for every profile; for a profile of 10 tracks over 6
genres the score is strictly positive and at most `log2 6 ≈ 2.585`. -/
theorem c7_entropy (prof : UserProfileData) (baseline : List Point) :
    (analyze prof baseline).entropy_score = entropyBits prof.tracks ∧
    0 ≤ (analyze prof baseline).entropy_score ∧
    (prof.tracks.length = 10 → (genreVocab prof.tracks).card = 6 →
      0 < (analyze prof baseline).entropy_score ∧
      (analyze prof baseline).entropy_score ≤ Real.logb 2 6) := by
  have hlog2 : (0 : ℝ) < Real.log 2 := Real.log_pos one_lt_two
  refine ⟨rfl, ?_, ?_⟩
  · exact div_nonneg (entropyNats_nonneg prof.tracks) hlog2.le
  · intro hlen hcard
    have htotpos : 0 < totalGenres prof.tracks := by
      have h6 : (genreVocab prof.tracks).card ≤ totalGenres prof.tracks := by
        rw [genreVocab, totalGenres]
        exact List.toFinset_card_le (allGenres prof.tracks)
      omega
    have hN : (0 : ℝ) < (totalGenres prof.tracks : ℝ) := by exact_mod_cast htotpos
    have hne : (genreVocab prof.tracks).Nonempty := by
      rw [← Finset.card_pos, hcard]
      norm_num
    have hplt1 : ∀ g ∈ genreVocab prof.tracks,
        (genreCount prof.tracks g : ℝ) / (totalGenres prof.tracks : ℝ) < 1 := by
      intro g hg
      rw [div_lt_one hN]
      exact_mod_cast count_lt_total_of_card prof.tracks hg (by omega)
    have hsum1 : ∑ g ∈ genreVocab prof.tracks,
        (genreCount prof.tracks g : ℝ) / (totalGenres prof.tracks : ℝ) = 1 := by
      rw [← Finset.sum_div]
      rw [show ∑ g ∈ genreVocab prof.tracks, (genreCount prof.tracks g : ℝ) =
          ((∑ g ∈ genreVocab prof.tracks, genreCount prof.tracks g : ℕ) : ℝ) by push_cast; rfl]
      rw [sum_genreCount]
      exact div_self (ne_of_gt hN)
    constructor
    · show 0 < entropyBits prof.tracks
      refine div_pos ?_ hlog2
      rw [entropyNats]
      obtain ⟨g0, hg0⟩ := hne
      refine Finset.sum_pos' ?_ ⟨g0, hg0, ?_⟩
      · intro g hg
        exact Real.negMulLog_nonneg (genreProb_pos hg htotpos).le (hplt1 g hg).le
      · exact negMulLog_pos_of_mem_Ioo (genreProb_pos hg0 htotpos) (hplt1 g0 hg0)
    · show entropyBits prof.tracks ≤ Real.logb 2 6
      have hJ : entropyNats prof.tracks ≤ Real.log 6 := by
        rw [entropyNats]
        have hstep : ∀ g ∈ genreVocab prof.tracks,
            Real.negMulLog ((genreCount prof.tracks g : ℝ) / (totalGenres prof.tracks : ℝ)) =
              ((genreCount prof.tracks g : ℝ) / (totalGenres prof.tracks : ℝ)) •
                Real.log (((genreCount prof.tracks g : ℝ) / (totalGenres prof.tracks : ℝ))⁻¹) := by
          intro g hg
          rw [smul_eq_mul, Real.log_inv, Real.negMulLog]
          ring
        rw [Finset.sum_congr rfl hstep]
        have hjensen := (strictConcaveOn_log_Ioi.concaveOn).le_map_sum
          (fun g hg => (genreProb_pos hg htotpos).le) hsum1
          (fun g hg => Set.mem_Ioi.2 (inv_pos.2 (genreProb_pos hg htotpos)))
        refine hjensen.trans_eq ?_
        congr 1
        rw [Finset.sum_congr rfl fun g hg => by
          rw [smul_eq_mul, mul_inv_cancel₀ (ne_of_gt (genreProb_pos hg htotpos))]]
        rw [Finset.sum_const, hcard]
        norm_num
      have hdiv := (div_le_div_iff_of_pos_right hlog2).2 hJ
      rwa [Real.log_div_log] at hdiv

/-- A demo track with one genre, used to instantiate the entropy scenario. -/
def demoTrack (i g : String) : Track :=
  { id := i, name := i, artists := [], popularity := 50, genres := [g],
    attrs := neutralAttrs }

/-- A demo profile with 10 tracks over exactly 6 genres. -/
def demoProfile : UserProfileData :=
  { userId := "u"
    tracks := [demoTrack "t1" "rock", demoTrack "t2" "rock", demoTrack "t3" "pop",
      demoTrack "t4" "pop", demoTrack "t5" "jazz", demoTrack "t6" "jazz",
      demoTrack "t7" "folk", demoTrack "t8" "metal", demoTrack "t9" "lofi",
      demoTrack "t10" "folk"] }

/-- **C7 (witness).** The entropy scenario at the concrete 10-track, 6-genre
profile: the score is strictly positive and at most `log2 6`. -/
theorem c7_entropy_witness :
    0 < (analyze demoProfile []).entropy_score ∧
    (analyze demoProfile []).entropy_score ≤ Real.logb 2 6 :=
  (c7_entropy demoProfile []).2.2 (by decide) (by decide)

end Resona
